import Mathlib

/-!
A verification development for the ytdle download orchestrator.

The Python core (`core/errors.py`, `core/downloader.py`, `core/async_manager.py`,
`core/database.py`, `core/history.py`) is shallowly embedded below: pure helpers
become Lean functions, the SQLite history table becomes an explicit list of rows,
the per-item retry loop and the batch loops become functions over an explicit
environment describing what the external fetcher does on each attempt.
-/

namespace Ytdle

/-- Python `pat in s` on lowercased strings: substring containment. -/
def containsSub (s pat : String) : Bool :=
  (List.range (s.toList.length + 1)).any fun i => pat.toList.isPrefixOf (s.toList.drop i)

/-- The typed error kinds of `core/errors.py` (each a `DownloadError` subclass;
`base` stands for the bare `DownloadError` returned when nothing matches). -/
inductive ErrorKind where
  | cancelled
  | formatNotAvailable
  | videoNotFound
  | authentication
  | network
  | filesystem
  | ffmpegNotFound
  | conversion
  | rateLimit
  | playlist
  | metadataExtraction
  | base
  deriving DecidableEq, Repr

/-- Python `str.lower()` (ASCII case folding, character by character). -/
def pyLower (s : String) : String :=
  String.mk (s.toList.map Char.toLower)

/-- `core/errors.py classify_error`: case-insensitive substring matching in
source order over the error message. -/
def classify_error (msg : String) : ErrorKind :=
  let e := pyLower msg
  if containsSub e "cancelled" || containsSub e "user cancelled" then .cancelled
  else if containsSub e "format" || containsSub e "no video formats" then .formatNotAvailable
  else if containsSub e "not found" || containsSub e "404" || containsSub e "unavailable" then .videoNotFound
  else if containsSub e "login" || containsSub e "authentication" || containsSub e "sign in" then .authentication
  else if containsSub e "network" || containsSub e "connection" || containsSub e "timeout" then .network
  else if containsSub e "permission" || containsSub e "disk" || containsSub e "space" then .filesystem
  else if containsSub e "ffmpeg" then .ffmpegNotFound
  else if containsSub e "conversion" || containsSub e "postprocessing" then .conversion
  else if containsSub e "rate limit" || containsSub e "429" then .rateLimit
  else if containsSub e "playlist" then .playlist
  else if containsSub e "metadata" || containsSub e "extract" then .metadataExtraction
  else .base

/-- `core/config.py DownloadOptions` (the scalar fields; the browser cookie spec
is the 4-tuple `(browser, profile, keyring, container)`). -/
structure DownloadOptions where
  is_mp3 : Bool
  quality : String
  outtmpl_template : String
  directory : String
  download_playlist : Bool
  restrict_filenames : Bool
  retries : Nat := 10
  fragment_retries : Nat := 10
  concurrent_fragment_downloads : Nat := 3
  nocheckcertificate : Bool := false
  cookies : Option String := none
  cookies_from_browser : Option (String × Option String × Option String × Option String) := none
  use_aria2c : Bool := false
  max_connections : Nat := 16
  max_concurrent_downloads : Nat := 3
  deriving Repr

/-- Python truthiness of an optional string (`None` and `""` are falsy). -/
def pyTruthyStr (o : Option String) : Bool :=
  match o with
  | none => false
  | some s => !s.toList.isEmpty

/-- Python `str.strip()`: drop leading and trailing whitespace. -/
def pyStrip (s : String) : String :=
  String.mk (((s.toList.dropWhile Char.isWhitespace).reverse.dropWhile Char.isWhitespace).reverse)

/-- `core/utils.py sanitize_template`: strip; empty falls back to the default. -/
def sanitize_template (template : String) : String :=
  let t := pyStrip template
  if t.toList.isEmpty then "%(title).150s" else t

/-- The character list of `"".join(filter(str.isdigit, s))`. -/
def digitsOf (s : String) : List Char :=
  s.toList.filter Char.isDigit

/-- Decimal value of a digit string, as Python `int` reads it. -/
def digitsVal (l : List Char) : Nat :=
  l.foldl (fun n c => n * 10 + (c.toNat - '0'.toNat)) 0

/-- `int("".join(filter(str.isdigit, quality)))` with the `ValueError → 1080`
fallback of `build_yt_dlp_options` (only the empty digit string raises). -/
def parsedHeight (quality : String) : Nat :=
  let d := digitsOf quality
  if d.isEmpty then 1080 else digitsVal d

/-- Audio bitrate: `"".join(filter(str.isdigit, opts.quality)) or "192"`
(kept as the digit string, exactly as the source passes it on). -/
def audioBitrate (quality : String) : String :=
  let d := digitsOf quality
  if d.isEmpty then "192" else String.mk d

/-- The per-attempt video format selector of `build_yt_dlp_options`
(`core/downloader.py` lines 80-99; identical in `core/async_manager.py`). -/
def videoFormat (quality : String) (attempt : Nat) : String :=
  if attempt == 0 then
    if pyLower quality == "best" then "bv*+ba/best"
    else
      let h := parsedHeight quality
      s!"bv*[height<={h}]+ba/b[height<={h}]/best[height<={h}]/best"
  else if attempt == 1 then
    if pyLower quality == "best" then "best[ext=mp4]/best"
    else
      let h := parsedHeight quality
      s!"best[height<={h}][ext=mp4]/best[height<={h}]/best"
  else "best"

/-- The slice of the yt-dlp option dictionary built by the two builders that the
orchestration logic determines (the ffmpeg location and postprocessor argument
fields depend on the host filesystem and are not modelled). -/
structure YdlConfig where
  outtmpl : String
  retries : Nat
  fragment_retries : Nat
  noplaylist : Bool
  restrictfilenames : Bool
  concurrent_fragment_downloads : Nat
  nocheckcertificate : Bool
  cookiefile : Option String := none
  cookiesfrombrowser : Option (String × Option String × Option String × Option String) := none
  external_downloader : Option String := none
  format : String := ""
  merge_output_format : Option String := none
  preferredquality : Option String := none
  writethumbnail : Bool := false
  deriving Repr, DecidableEq

/-- `core/downloader.py build_yt_dlp_options` (the threaded builder).
It consults only `opts.cookies` for cookies — the dictionary key
`cookiesfrombrowser` never appears in this function. -/
def build_yt_dlp_options (opts : DownloadOptions) (attempt : Nat) : YdlConfig :=
  let base : YdlConfig := {
    outtmpl := opts.directory ++ "/" ++ sanitize_template opts.outtmpl_template ++ ".%(ext)s"
    retries := opts.retries
    fragment_retries := opts.fragment_retries
    noplaylist := !opts.download_playlist
    restrictfilenames := opts.restrict_filenames
    concurrent_fragment_downloads := opts.concurrent_fragment_downloads
    nocheckcertificate := opts.nocheckcertificate
    cookiefile := if pyTruthyStr opts.cookies then opts.cookies else none
  }
  if opts.is_mp3 then
    { base with
        format := "bestaudio/best"
        preferredquality := some (audioBitrate opts.quality)
        writethumbnail := true }
  else
    { base with
        format := videoFormat opts.quality attempt
        merge_output_format := some "mp4" }

/-- `core/async_manager.py build_yt_dlp_options_async`: browser cookies take
priority over the cookie file, plus the optional aria2c external downloader. -/
def build_yt_dlp_options_async (opts : DownloadOptions) (attempt : Nat) : YdlConfig :=
  let base : YdlConfig := {
    outtmpl := opts.directory ++ "/" ++ sanitize_template opts.outtmpl_template ++ ".%(ext)s"
    retries := opts.retries
    fragment_retries := opts.fragment_retries
    noplaylist := !opts.download_playlist
    restrictfilenames := opts.restrict_filenames
    concurrent_fragment_downloads := opts.concurrent_fragment_downloads
    nocheckcertificate := opts.nocheckcertificate
    cookiesfrombrowser := if opts.cookies_from_browser.isSome then opts.cookies_from_browser else none
    cookiefile :=
      if opts.cookies_from_browser.isSome then none
      else if pyTruthyStr opts.cookies then opts.cookies else none
    external_downloader := if opts.use_aria2c then some "aria2c" else none
  }
  if opts.is_mp3 then
    { base with
        format := "bestaudio/best"
        preferredquality := some (audioBitrate opts.quality)
        writethumbnail := true }
  else
    { base with
        format := videoFormat opts.quality attempt
        merge_output_format := some "mp4" }

/-! ## Item driver: `_download_with_fallback`

The external fetcher is an environment `env : Nat → Option String`: `env a = none`
means attempt `a` succeeds, `env a = some msg` means the fetcher raises an
exception whose message is `msg`.  Runs with no cancel asserted are modelled
(the cancel check at the top of each attempt never fires). -/

/-- `max_attempts = 3 if not self.options.is_mp3 else 1`. -/
def maxAttempts (is_mp3 : Bool) : Nat :=
  if is_mp3 then 1 else 3

/-- Result of `_download_with_fallback`: either a `return success, last_error`
or an exception propagating out of the attempt loop. -/
inductive FallbackOutcome where
  | returned (success : Bool) (last_error : String)
  | raised (msg : String)
  deriving DecidableEq, Repr

/-- The attempt loop of `_download_with_fallback` (`core/downloader.py` 266-309,
identical in `core/async_manager.py` 323-364), iterating over the remaining
attempt indices.  On an error the code classifies it; `FormatNotAvailableError`
continues when `attempt < max_attempts - 1`, else re-raises; every other
classified error is an instance of `DownloadError`, so the `elif` branch also
continues when an attempt remains and otherwise falls through to `raise`. -/
def fallbackGo (env : Nat → Option String) (maxA : Nat) (last_error : String) :
    List Nat → FallbackOutcome
  | [] => .returned false last_error
  | a :: rest =>
    match env a with
    | none => .returned true last_error
    | some msg =>
      if classify_error msg = .formatNotAvailable then
        if a < maxA - 1 then fallbackGo env maxA msg rest
        else .raised msg
      else
        if a < maxA - 1 then fallbackGo env maxA msg rest
        else .raised msg

/-- `_download_with_fallback` for a single URL under fetcher behaviour `env`. -/
def download_with_fallback (env : Nat → Option String) (is_mp3 : Bool) : FallbackOutcome :=
  fallbackGo env (maxAttempts is_mp3) "" (List.range (maxAttempts is_mp3))

/-! ## Progress hook: `_progress_hook` percentage logging -/

/-- The fields of a yt-dlp `downloading` progress event that the logging logic
of `_progress_hook` reads. -/
structure ProgressEvent where
  total_bytes : Option Nat := none
  total_bytes_estimate : Option Nat := none
  downloaded_bytes : Nat := 0
  deriving DecidableEq, Repr

/-- Python truthiness of an optional byte count (`None` and `0` are falsy). -/
def pyTruthyNat (o : Option Nat) : Bool :=
  match o with
  | none => false
  | some n => n != 0

/-- `total = d.get("total_bytes") or d.get("total_bytes_estimate")`, then the
`if total:` truthiness guard. -/
def effTotal (e : ProgressEvent) : Option Nat :=
  let t := if pyTruthyNat e.total_bytes then e.total_bytes else e.total_bytes_estimate
  if pyTruthyNat t then t else none

/-- One `downloading` event through the logging slice of `_progress_hook`
(`core/downloader.py` 202-219): given `_last_logged_pct`, returns the new
`_last_logged_pct` and the logged percentage if a `Progress: {pct}%` line was
emitted.  `pct = int(downloaded * 100 / total)` is the truncated nonnegative
division. -/
def hookLogStep (last : Int) (e : ProgressEvent) : Int × Option Int :=
  match effTotal e with
  | none => (last, none)
  | some t =>
    let pct : Int := ((e.downloaded_bytes * 100) / t : Nat)
    if last + 10 ≤ pct then (pct - pct % 10, some pct) else (last, none)

/-- The sequence of logged percentages over a run of `downloading` events,
threading `_last_logged_pct` (reset to `-10` at item start, line 390). -/
def hookLogs (last : Int) : List ProgressEvent → List Int
  | [] => []
  | e :: es =>
    match hookLogStep last e with
    | (l2, some p) => p :: hookLogs l2 es
    | (l2, none) => hookLogs l2 es

/-! ## Batch loops: `DownloadManager.run` and `AsyncDownloadManager.run_async` -/

/-- What one iteration of the `run` loop observes for its URL: the value of
`_download_with_fallback` or the exception reaching `run`'s handler. -/
inductive ItemResult where
  | finishedOk (path : String)
  | failedReturn (msg : String)
  | raisedCancel
  | raisedSkip
  | raisedOther (msg : String)
  deriving DecidableEq, Repr

/-- Counter logic of `DownloadManager.run` (`core/downloader.py` 373-499):
success (+1 success), the `success == False` return path (+1 fail), any other
exception (+1 fail), `"Skip current"` continues without touching either
counter, `"User cancelled"` breaks without touching either counter. -/
def runCountsGo (s f : Nat) : List ItemResult → Nat × Nat
  | [] => (s, f)
  | r :: rest =>
    match r with
    | .finishedOk _ => runCountsGo (s + 1) f rest
    | .failedReturn _ => runCountsGo s (f + 1) rest
    | .raisedCancel => (s, f)
    | .raisedSkip => runCountsGo s f rest
    | .raisedOther _ => runCountsGo s (f + 1) rest

/-- The `(success_count, fail_count)` pair that `run` passes to
`on_all_finished`. -/
def runCounts (results : List ItemResult) : Nat × Nat :=
  runCountsGo 0 0 results

/-- The `(success_count, fail_count)` pair that `AsyncDownloadManager.run_async`
passes to `on_all_finished` (`core/async_manager.py` 582-626): both local
counters are initialized to zero and never incremented anywhere in the
function, whatever the per-item outcomes were. -/
def asyncRunCounts (_results : List ItemResult) : Nat × Nat :=
  (0, 0)

/-- The callback events a manager can emit. -/
inductive Event where
  | progress (n : Nat)
  | status (s : String)
  | log (s : String)
  | error (s : String)
  | itemStarted (url : String)
  | itemFinished (url : String) (success : Bool) (info : String)
  | allFinished (succ fail : Nat)
  deriving DecidableEq, Repr

/-- The event-emitting loop of `DownloadManager.run`.  `itemTrace idx url r`
stands for everything the loop body emits for one item (the per-item banner
events, the fetcher-driven hook events, cleanup logs and finalize events);
cancel breaks the loop, skip continues without counting, other exceptions and
the dead `success == False` path count a failure, success counts a success. -/
def runLoop (itemTrace : Nat → String → ItemResult → List Event) (idx s f : Nat) :
    List (String × ItemResult) → List Event × Nat × Nat
  | [] => ([], s, f)
  | (url, r) :: rest =>
    let evs := itemTrace idx url r
    match r with
    | .finishedOk _ =>
      let (es, s2, f2) := runLoop itemTrace (idx + 1) (s + 1) f rest
      (evs ++ es, s2, f2)
    | .failedReturn _ =>
      let (es, s2, f2) := runLoop itemTrace (idx + 1) s (f + 1) rest
      (evs ++ es, s2, f2)
    | .raisedCancel => (evs, s, f)
    | .raisedSkip =>
      let (es, s2, f2) := runLoop itemTrace (idx + 1) s f rest
      (evs ++ es, s2, f2)
    | .raisedOther _ =>
      let (es, s2, f2) := runLoop itemTrace (idx + 1) s (f + 1) rest
      (evs ++ es, s2, f2)

/-- Full event trace of `DownloadManager.run`: the unconditional
`yt-dlp version: …` log before the loop, the loop body, then
`allFinished(success_count, fail_count)`. -/
def runEvents (ydl_ver : String) (itemTrace : Nat → String → ItemResult → List Event)
    (items : List (String × ItemResult)) : List Event :=
  let (es, s, f) := runLoop itemTrace 1 0 0 items
  (Event.log ("yt-dlp version: " ++ ydl_ver) :: es) ++ [Event.allFinished s f]

/-- Full event trace of `AsyncDownloadManager.run_async`: two unconditional
log lines before the workers start, the worker-emitted events (empty when the
queue is empty), then `allFinished(0, 0)` with the never-incremented counters. -/
def asyncRunEvents (ydl_ver : String) (max_concurrent : Nat)
    (bodyEvents : List Event) : List Event :=
  [Event.log ("yt-dlp version: " ++ ydl_ver),
   Event.log s!"Using async download manager with {max_concurrent} concurrent workers"]
  ++ bodyEvents ++ [Event.allFinished 0 0]

/-! ## History store: `core/database.py`

The SQLite `history` table is modelled as a list of rows plus the autoincrement
counter.  `CURRENT_TIMESTAMP` (used when an insert omits the column) is passed
in explicitly as `now`. -/

/-- One row of the `history` table (column defaults from the schema). -/
structure HistoryRow where
  id : Nat
  url : String
  title : String := "Unknown"
  format : String := "mp4"
  quality : String := "best"
  timestamp : String
  output_path : String := ""
  success : Bool := false
  error_message : String := ""
  retry_count : Nat := 0
  metadata : String := "\x7b\x7d"
  deriving DecidableEq, Repr

/-- The `history` table: rows in insertion (rowid) order plus the next
autoincrement id. -/
structure HistoryDb where
  rows : List HistoryRow := []
  nextId : Nat := 1
  deriving DecidableEq, Repr

/-- `DatabaseManager.add_record`: INSERT with the timestamp column left to its
`CURRENT_TIMESTAMP` default (`now`). -/
def add_record (db : HistoryDb) (now url title format quality output_path : String)
    (success : Bool) (error_message : String) (retry_count : Nat) (metadata : String) :
    HistoryDb :=
  { rows := db.rows ++ [{
      id := db.nextId, url := url, title := title, format := format,
      quality := quality, timestamp := now, output_path := output_path,
      success := success, error_message := error_message,
      retry_count := retry_count, metadata := metadata }]
    nextId := db.nextId + 1 }

/-- `DatabaseManager.add_completed`. -/
def add_completed (db : HistoryDb) (now url title format quality output_path : String) :
    HistoryDb :=
  add_record db now url title format quality output_path true "" 0 "\x7b\x7d"

/-- `DatabaseManager.add_failed`. -/
def add_failed (db : HistoryDb) (now url title format quality error_message : String)
    (retry_count : Nat) : HistoryDb :=
  add_record db now url title format quality "" false error_message retry_count "\x7b\x7d"

/-- The descending-timestamp comparison used by `ORDER BY timestamp DESC`
(SQLite compares TEXT timestamps lexicographically). -/
def tsDesc (a b : HistoryRow) : Prop :=
  b.timestamp ≤ a.timestamp

instance : DecidableRel tsDesc :=
  fun a b => inferInstanceAs (Decidable (b.timestamp ≤ a.timestamp))

instance : IsTotal HistoryRow tsDesc :=
  ⟨fun a b => le_total b.timestamp a.timestamp⟩

instance : IsTrans HistoryRow tsDesc :=
  ⟨fun _ _ _ hab hbc => le_trans hbc hab⟩

/-- `DatabaseManager.get_failed` (no limit): `WHERE success = 0 ORDER BY
timestamp DESC`. -/
def get_failed (db : HistoryDb) : List HistoryRow :=
  List.insertionSort tsDesc (db.rows.filter (fun r => !r.success))

/-- `DatabaseManager.get_completed` (no limit). -/
def get_completed (db : HistoryDb) : List HistoryRow :=
  List.insertionSort tsDesc (db.rows.filter (fun r => r.success))

/-- The keyword arguments `DatabaseManager.update_record` accepts
(`allowed_fields`); `none` means the field was not passed. -/
structure UpdateFields where
  title : Option String := none
  format : Option String := none
  quality : Option String := none
  output_path : Option String := none
  success : Option Bool := none
  error_message : Option String := none
  retry_count : Option Nat := none
  metadata : Option String := none
  deriving DecidableEq, Repr

/-- Whether any allowed field was passed (`if not updates: return False`). -/
def UpdateFields.hasAny (u : UpdateFields) : Bool :=
  u.title.isSome || u.format.isSome || u.quality.isSome || u.output_path.isSome ||
  u.success.isSome || u.error_message.isSome || u.retry_count.isSome || u.metadata.isSome

/-- Apply the SET clause to one row. -/
def applyUpdate (u : UpdateFields) (r : HistoryRow) : HistoryRow :=
  { r with
      title := u.title.getD r.title
      format := u.format.getD r.format
      quality := u.quality.getD r.quality
      output_path := u.output_path.getD r.output_path
      success := u.success.getD r.success
      error_message := u.error_message.getD r.error_message
      retry_count := u.retry_count.getD r.retry_count
      metadata := u.metadata.getD r.metadata }

/-- `DatabaseManager.update_record`: `UPDATE history SET … WHERE url = ?` —
the SET clause hits every row whose `url` column equals the argument; returns
the updated store and `cursor.rowcount > 0`. -/
def update_record (db : HistoryDb) (url : String) (u : UpdateFields) :
    HistoryDb × Bool :=
  if u.hasAny then
    ({ db with rows := db.rows.map (fun r => if r.url = url then applyUpdate u r else r) },
     decide (∃ r ∈ db.rows, r.url = url))
  else
    (db, false)

/-- The dictionary returned by `DatabaseManager.get_stats`; the rate is the
exact rational value of the Python division. -/
structure Stats where
  total : Nat
  completed : Nat
  failed : Nat
  success_rate : ℚ
  deriving DecidableEq, Repr

/-- `DatabaseManager.get_stats`: three COUNT queries and
`completed / total if total > 0 else 0`. -/
def get_stats (db : HistoryDb) : Stats :=
  let total := db.rows.length
  let completed := (db.rows.filter (fun r => r.success)).length
  let failed := (db.rows.filter (fun r => !r.success)).length
  { total := total, completed := completed, failed := failed,
    success_rate := if total > 0 then (completed : ℚ) / (total : ℚ) else 0 }

/-- `DatabaseManager.export_failed_urls`: the text written to the output file —
one bare URL per line, nothing else. -/
def export_failed_urls_text (db : HistoryDb) : String :=
  (get_failed db).foldl (fun acc r => acc ++ r.url ++ "\n") ""

/-- `core/history.py DownloadHistory.export_failed` (SQLite path): the text
written to the output file — a comment-header block per failed record. -/
def export_failed_text (db : HistoryDb) : String :=
  (get_failed db).foldl
    (fun acc r =>
      acc ++ s!"# Failed: {r.error_message}\n"
          ++ s!"# Retry count: {r.retry_count}\n"
          ++ s!"# Date: {r.timestamp}\n"
          ++ s!"{r.url}\n\n")
    ""

/-! ## JSON migration: `DatabaseManager.migrate_from_json` -/

/-- A record of the legacy JSON history file; `none` marks an absent key, so
the `record.get(key, default)` fallbacks below are explicit. -/
structure JsonRecord where
  url : Option String := none
  title : Option String := none
  format : Option String := none
  quality : Option String := none
  timestamp : Option String := none
  output_path : Option String := none
  success : Option Bool := none
  error_message : Option String := none
  retry_count : Option Nat := none
  metadata : Option String := none
  deriving DecidableEq, Repr

/-- The top-level shape of the legacy JSON file: the old flat-file writer
produced a raw array (`core/history.py _save` dumps a list), the newer shape is
an object with a `records` key. -/
inductive LegacyJson where
  | rawArr (records : List JsonRecord)
  | objWithRecords (records : List JsonRecord)
  | objNoRecords
  deriving DecidableEq, Repr

/-- The INSERT performed for one migrated record: defaults per
`record.get(...)`, the timestamp taken from the record when present
(`record.get("timestamp", datetime.now().isoformat())`). -/
def migrateInsert (now : String) (db : HistoryDb) (r : JsonRecord) : HistoryDb :=
  { rows := db.rows ++ [{
      id := db.nextId,
      url := r.url.getD "",
      title := r.title.getD "Unknown",
      format := r.format.getD "mp4",
      quality := r.quality.getD "best",
      timestamp := r.timestamp.getD now,
      output_path := r.output_path.getD "",
      success := r.success.getD false,
      error_message := r.error_message.getD "",
      retry_count := r.retry_count.getD 0,
      metadata := r.metadata.getD "\x7b\x7d" }]
    nextId := db.nextId + 1 }

/-- Result of `migrate_from_json`: the return value, the store afterwards, and
whether the JSON file was renamed to its `.json.backup` path. -/
structure MigrateResult where
  migrated : Nat
  db : HistoryDb
  renamedToBackup : Bool
  deriving DecidableEq, Repr

/-- `DatabaseManager.migrate_from_json` on an existing file of shape `j`.
`records = data.get("records", [])` raises `AttributeError` when the top level
is a raw array (a Python list has no `get`); the enclosing `except` then logs
and returns `0` before any insert or the rename is reached.  For an object the
listed records are inserted and the file is renamed afterwards. -/
def migrate_from_json (db : HistoryDb) (now : String) (j : LegacyJson) : MigrateResult :=
  match j with
  | .rawArr _ => { migrated := 0, db := db, renamedToBackup := false }
  | .objWithRecords rs =>
    { migrated := rs.length, db := rs.foldl (migrateInsert now) db, renamedToBackup := true }
  | .objNoRecords => { migrated := 0, db := db, renamedToBackup := true }

/-! ## Lemmas about the attempt loop -/

theorem fallbackGo_cons_none {env : Nat → Option String} {a : Nat} (maxA : Nat)
    (last : String) (rest : List Nat) (h : env a = none) :
    fallbackGo env maxA last (a :: rest) = .returned true last := by
  simp [fallbackGo, h]

theorem fallbackGo_cons_retry {env : Nat → Option String} {a : Nat} {m : String}
    (maxA : Nat) (last : String) (rest : List Nat) (h : env a = some m)
    (hlt : a < maxA - 1) :
    fallbackGo env maxA last (a :: rest) = fallbackGo env maxA m rest := by
  simp [fallbackGo, h, hlt]

theorem fallbackGo_cons_exhausted {env : Nat → Option String} {a : Nat} {m : String}
    (maxA : Nat) (last : String) (rest : List Nat) (h : env a = some m)
    (hge : ¬ a < maxA - 1) :
    fallbackGo env maxA last (a :: rest) = .raised m := by
  simp [fallbackGo, h, hge]

/-- C2: the claim as frozen is false on the code: an error classified as
`VideoNotFound` (neither `FormatNotAvailable`, `Network`, nor unknown) on the
first video attempt does consume another attempt — with a fetcher that raises
`"404: not found"` on attempt 0 and succeeds on attempt 1, the driver returns
success instead of finalizing the item as Failed. -/
theorem classify_retry_counterexample :
    classify_error "404: not found" = ErrorKind.videoNotFound ∧
    download_with_fallback (fun a => if a == 0 then some "404: not found" else none) false
      = FallbackOutcome.returned true "404: not found" := by
  constructor
  · decide
  · decide

/-- C2 (amended): in `_download_with_fallback` every classified error kind —
not only `FormatNotAvailable`, `Network` and unknown — consumes another attempt
while one remains; the error propagates (the item is finalized as Failed) iff
every attempt errored: all three for video, the single attempt for audio. -/
theorem fallback_retries_every_kind (env : Nat → Option String) (e : String) :
    (download_with_fallback env false = .raised e ↔
       (∃ e0, env 0 = some e0) ∧ (∃ e1, env 1 = some e1) ∧ env 2 = some e) ∧
    (download_with_fallback env true = .raised e ↔ env 0 = some e) := by
  constructor
  · show fallbackGo env 3 "" [0, 1, 2] = .raised e ↔ _
    cases h0 : env 0 with
    | none => rw [fallbackGo_cons_none _ _ _ h0]; simp [h0]
    | some m0 =>
      rw [fallbackGo_cons_retry _ _ _ h0 (by decide)]
      cases h1 : env 1 with
      | none => rw [fallbackGo_cons_none _ _ _ h1]; simp [h1]
      | some m1 =>
        rw [fallbackGo_cons_retry _ _ _ h1 (by decide)]
        cases h2 : env 2 with
        | none => rw [fallbackGo_cons_none _ _ _ h2]; simp [h2]
        | some m2 =>
          rw [fallbackGo_cons_exhausted _ _ _ h2 (by decide)]
          simp [h0, h1, h2]
  · show fallbackGo env 1 "" [0] = .raised e ↔ _
    cases h0 : env 0 with
    | none => rw [fallbackGo_cons_none _ _ _ h0]; simp [h0]
    | some m0 =>
      rw [fallbackGo_cons_exhausted _ _ _ h0 (by decide)]
      simp

/-- Concrete instantiation of `fallback_retries_every_kind`: a persistent
network error exhausts all three video attempts and then propagates. -/
theorem fallback_retries_every_kind_witness :
    download_with_fallback (fun _ => some "connection timeout") false
      = FallbackOutcome.raised "connection timeout" :=
  (fallback_retries_every_kind (fun _ => some "connection timeout") "connection timeout").1.mpr
    ⟨⟨"connection timeout", rfl⟩, ⟨"connection timeout", rfl⟩, rfl⟩

/-! ## Quality-token and cookie handling of the builders -/

/-- A video options record whose quality token has no digits but does not
lowercase to `best`. -/
def optsUltra : DownloadOptions :=
  { is_mp3 := false, quality := "Ultra", outtmpl_template := "t",
    directory := "/out", download_playlist := false, restrict_filenames := false }

/-- C5: the claim as frozen is false on the code: the digit-free video quality
token `"Ultra"` is not treated as unrestricted — `int("")` raises and the
height cap defaults to 1080, so attempt 0 builds a capped selector, not
`bv*+ba/best`. -/
theorem quality_nodigits_counterexample :
    digitsOf "Ultra" = [] ∧
    (build_yt_dlp_options optsUltra 0).format
      = "bv*[height<=1080]+ba/b[height<=1080]/best[height<=1080]/best" ∧
    (build_yt_dlp_options optsUltra 0).format ≠ "bv*+ba/best" := by
  refine ⟨by decide, by decide, by decide⟩

/-- C5 (amended): a video quality token is unrestricted on every attempt iff it
lowercases to `best`; any other digit-free token falls back to a height cap of
1080; a digit-free audio token yields the default bitrate `192`. -/
theorem quality_nodigits_amended (opts : DownloadOptions) (a : Nat) :
    (opts.is_mp3 = false → pyLower opts.quality = "best" →
       (build_yt_dlp_options opts a).format =
         (if a == 0 then "bv*+ba/best" else if a == 1 then "best[ext=mp4]/best" else "best")) ∧
    (opts.is_mp3 = true → digitsOf opts.quality = [] →
       (build_yt_dlp_options opts a).preferredquality = some "192") ∧
    (opts.is_mp3 = false → digitsOf opts.quality = [] → pyLower opts.quality ≠ "best" →
       (build_yt_dlp_options opts a).format =
         (if a == 0 then "bv*[height<=1080]+ba/b[height<=1080]/best[height<=1080]/best"
          else if a == 1 then "best[height<=1080][ext=mp4]/best[height<=1080]/best"
          else "best")) := by
  refine ⟨fun h1 h2 => ?_, fun h1 h2 => ?_, fun h1 h2 h3 => ?_⟩
  · simp [build_yt_dlp_options, videoFormat, h1, h2]
  · simp [build_yt_dlp_options, audioBitrate, h1, h2]
  · simp [build_yt_dlp_options, videoFormat, parsedHeight, h1, h2, h3]
    split
    · rfl
    · split <;> rfl

/-- Concrete instantiation of `quality_nodigits_amended`. -/
theorem quality_nodigits_amended_witness :
    (build_yt_dlp_options
       { optsUltra with quality := "Best" } 0).format = "bv*+ba/best" ∧
    (build_yt_dlp_options
       { optsUltra with is_mp3 := true, quality := "Best" } 0).preferredquality = some "192" ∧
    (build_yt_dlp_options optsUltra 1).format
      = "best[height<=1080][ext=mp4]/best[height<=1080]/best" := by
  refine ⟨?_, ?_, ?_⟩
  · have h := (quality_nodigits_amended { optsUltra with quality := "Best" } 0).1
      rfl (by decide)
    simpa using h
  · have h := (quality_nodigits_amended { optsUltra with is_mp3 := true, quality := "Best" } 0).2.1
      rfl (by decide)
    simpa using h
  · have h := (quality_nodigits_amended optsUltra 1).2.2
      rfl (by decide) (by decide)
    simpa using h

/-- An options record with both a browser-cookie spec and a cookie file. -/
def optsBothCookies : DownloadOptions :=
  { is_mp3 := false, quality := "best", outtmpl_template := "t",
    directory := "/out", download_playlist := false, restrict_filenames := false,
    cookies := some "/tmp/c.txt",
    cookies_from_browser := some ("chrome", none, none, none) }

/-- C6: the claim as frozen is false on the code: the threaded builder
`build_yt_dlp_options` never consults the browser-cookie spec — with both
options set it emits the cookie file and no browser entry, so the browser spec
does not take precedence there. -/
theorem cookies_precedence_counterexample :
    optsBothCookies.cookies_from_browser.isSome = true ∧
    (build_yt_dlp_options optsBothCookies 0).cookiesfrombrowser = none ∧
    (build_yt_dlp_options optsBothCookies 0).cookiefile = some "/tmp/c.txt" := by
  refine ⟨by decide, by decide, by decide⟩

/-- C6 (amended): the async builder uses the browser spec when present, else
the cookie file, and never both; the threaded builder ignores the browser spec
entirely and uses the cookie file whenever it is set and non-empty. -/
theorem cookies_precedence_amended (opts : DownloadOptions) (a : Nat) :
    (opts.cookies_from_browser.isSome = true →
       (build_yt_dlp_options_async opts a).cookiesfrombrowser = opts.cookies_from_browser ∧
       (build_yt_dlp_options_async opts a).cookiefile = none) ∧
    (opts.cookies_from_browser = none →
       (build_yt_dlp_options_async opts a).cookiesfrombrowser = none ∧
       (build_yt_dlp_options_async opts a).cookiefile =
         (if pyTruthyStr opts.cookies then opts.cookies else none)) ∧
    ((build_yt_dlp_options_async opts a).cookiesfrombrowser.isSome = true →
       (build_yt_dlp_options_async opts a).cookiefile = none) ∧
    (build_yt_dlp_options opts a).cookiesfrombrowser = none ∧
    (build_yt_dlp_options opts a).cookiefile =
      (if pyTruthyStr opts.cookies then opts.cookies else none) := by
  cases hb : opts.cookies_from_browser with
  | none =>
    refine ⟨fun h => by simp [hb] at h, fun _ => ?_, fun h => ?_, ?_, ?_⟩
    · cases h1 : opts.is_mp3 <;>
        simp [build_yt_dlp_options_async, h1, hb]
    · exfalso
      cases h1 : opts.is_mp3 <;>
        simp [build_yt_dlp_options_async, h1, hb] at h
    · cases h1 : opts.is_mp3 <;>
        simp [build_yt_dlp_options, h1]
    · cases h1 : opts.is_mp3 <;>
        simp [build_yt_dlp_options, h1]
  | some spec =>
    refine ⟨fun _ => ?_, fun h => by simp [hb] at h, fun _ => ?_, ?_, ?_⟩
    · constructor <;> cases h1 : opts.is_mp3 <;>
        simp [build_yt_dlp_options_async, h1, hb]
    · cases h1 : opts.is_mp3 <;>
        simp [build_yt_dlp_options_async, h1, hb]
    · cases h1 : opts.is_mp3 <;>
        simp [build_yt_dlp_options, h1]
    · cases h1 : opts.is_mp3 <;>
        simp [build_yt_dlp_options, h1]

/-- Concrete instantiation of `cookies_precedence_amended`. -/
theorem cookies_precedence_amended_witness :
    (build_yt_dlp_options_async optsBothCookies 0).cookiesfrombrowser
      = some ("chrome", none, none, none) ∧
    (build_yt_dlp_options_async optsBothCookies 0).cookiefile = none := by
  have h := (cookies_precedence_amended optsBothCookies 0).1 (by decide)
  simpa using h

/-! ## Progress-hook logging lemmas -/

/-- The computed percentage `int(downloaded * 100 / total)` of one event. -/
def pctOf (e : ProgressEvent) (t : Nat) : Int :=
  ((e.downloaded_bytes * 100) / t : Nat)

theorem pctOf_nonneg (e : ProgressEvent) (t : Nat) : 0 ≤ pctOf e t :=
  Int.natCast_nonneg _

theorem hookLogStep_eq_none {e : ProgressEvent} (h : effTotal e = none) (last : Int) :
    hookLogStep last e = (last, none) := by
  simp [hookLogStep, h]

theorem hookLogStep_eq_some {e : ProgressEvent} {t : Nat} (h : effTotal e = some t)
    (last : Int) :
    hookLogStep last e =
      (if last + 10 ≤ pctOf e t
       then (pctOf e t - pctOf e t % 10, some (pctOf e t))
       else (last, none)) := by
  simp only [hookLogStep, h]
  rfl

theorem hookLogStep_mono (last : Int) (e : ProgressEvent) :
    last ≤ (hookLogStep last e).1 := by
  cases heq : effTotal e with
  | none => rw [hookLogStep_eq_none heq]
  | some t =>
    rw [hookLogStep_eq_some heq]
    split
    · rename_i h
      dsimp only
      omega
    · dsimp only
      omega

theorem hookLogStep_nolog {last : Int} {e : ProgressEvent} {l2 : Int}
    (h : hookLogStep last e = (l2, none)) : l2 = last := by
  cases heq : effTotal e with
  | none =>
    rw [hookLogStep_eq_none heq] at h
    simp only [Prod.mk.injEq] at h
    omega
  | some t =>
    rw [hookLogStep_eq_some heq] at h
    split at h <;> simp only [Prod.mk.injEq] at h
    · exact absurd h.2 (by simp)
    · omega

theorem hookLogStep_log {last : Int} {e : ProgressEvent} {l2 p : Int}
    (h : hookLogStep last e = (l2, some p)) :
    l2 = p - p % 10 ∧ last + 10 ≤ p ∧ 0 ≤ p := by
  cases heq : effTotal e with
  | none =>
    rw [hookLogStep_eq_none heq] at h
    exact absurd (Prod.mk.injEq .. ▸ h).2 (by simp)
  | some t =>
    rw [hookLogStep_eq_some heq] at h
    split at h <;> simp only [Prod.mk.injEq, Option.some.injEq] at h
    · rename_i hge
      have hnn := pctOf_nonneg e t
      omega
    · exact absurd h.2 (by simp)

theorem hookLogs_cons (last : Int) (e : ProgressEvent) (es : List ProgressEvent) :
    hookLogs last (e :: es) =
      (match hookLogStep last e with
       | (l2, some p) => p :: hookLogs l2 es
       | (l2, none) => hookLogs l2 es) := rfl

theorem hookLogs_chain (es : List ProgressEvent) (last : Int) :
    List.Chain' (fun p q => p - p % 10 + 10 ≤ q) (hookLogs last es) ∧
    (∀ p ∈ (hookLogs last es).head?, last + 10 ≤ p) := by
  induction es generalizing last with
  | nil => simp [hookLogs]
  | cons e es ih =>
    rcases hstep : hookLogStep last e with ⟨l2, logged⟩
    cases logged with
    | none =>
      have hl2 : l2 = last := hookLogStep_nolog hstep
      subst hl2
      have htrace : hookLogs l2 (e :: es) = hookLogs l2 es := by
        rw [hookLogs_cons, hstep]
      rw [htrace]
      exact ih l2
    | some p =>
      obtain ⟨hl2, hp, _⟩ := hookLogStep_log hstep
      have htrace : hookLogs last (e :: es) = p :: hookLogs l2 es := by
        rw [hookLogs_cons, hstep]
      rw [htrace]
      constructor
      · rw [List.chain'_cons']
        refine ⟨fun q hq => ?_, (ih l2).1⟩
        have := (ih l2).2 q hq
        omega
      · intro q hq
        simp at hq
        omega

/-- C7: the claim as frozen is false on the code: with a 100-byte total, the
events at 19 and 20 downloaded bytes both produce a `Progress:` log line
(`19 ≥ −10+10`, then `20 ≥ 10+10` after the floor to 10), so two consecutive
log lines for one item can differ by 1 percentage point, not ≥ 10. -/
theorem progress_log_counterexample :
    hookLogs (-10)
      [{ total_bytes := some 100, downloaded_bytes := 19 },
       { total_bytes := some 100, downloaded_bytes := 20 }] = [19, 20] ∧
    ¬ ((20 : Int) - 19 ≥ 10) := by
  refine ⟨by decide, by decide⟩

/-- C7 (amended): `_last_logged_pct` is monotonically non-decreasing from its
per-item reset to −10; the very first event with a known total logs at any
percentage ≥ 0; and between consecutive log lines the floor-to-multiple-of-10
of the reported percentage increases by at least 10 (the raw percentages may
differ by as little as 1). -/
theorem progress_log_amended :
    (∀ (last : Int) (e : ProgressEvent), last ≤ (hookLogStep last e).1) ∧
    (∀ (e : ProgressEvent) (t : Nat), effTotal e = some t →
       ((hookLogStep (-10) e).2).isSome = true) ∧
    (∀ (es : List ProgressEvent),
       List.Chain' (fun p q => p - p % 10 + 10 ≤ q) (hookLogs (-10) es)) := by
  refine ⟨hookLogStep_mono, fun e t h => ?_, fun es => (hookLogs_chain es (-10)).1⟩
  rw [hookLogStep_eq_some h]
  split
  · simp
  · rename_i hlt
    exfalso
    apply hlt
    have hnn := pctOf_nonneg e t
    omega

/-- Concrete instantiation of `progress_log_amended`. -/
theorem progress_log_amended_witness :
    ((-10 : Int)) ≤ (hookLogStep (-10) { total_bytes := some 100, downloaded_bytes := 19 }).1 ∧
    ((hookLogStep (-10) { total_bytes := some 100, downloaded_bytes := 19 }).2).isSome = true ∧
    List.Chain' (fun p q => p - p % 10 + 10 ≤ q)
      (hookLogs (-10)
        [{ total_bytes := some 100, downloaded_bytes := 19 },
         { total_bytes := some 100, downloaded_bytes := 20 }]) :=
  ⟨progress_log_amended.1 (-10) _,
   progress_log_amended.2.1 _ 100 (by decide),
   progress_log_amended.2.2 _⟩

/-! ## Batch counting and empty-batch traces -/

/-- Per-item results of a two-URL batch with no cancel asserted: the first item
is skipped by the user, the second succeeds. -/
def failingBatch : List ItemResult :=
  [ItemResult.raisedSkip, ItemResult.finishedOk "/out/a.mp4"]

/-- C1: the code contradicts the invariant at this input.  For the batch
`[u1 skipped, u2 succeeded]` (no cancel) the threaded manager emits
`allFinished(1, 0)` — the skipped item is counted in neither counter — and the
async manager always emits `allFinished(0, 0)` because `run_async` never
increments its local counters; in both cases `successCount + failCount` is not
the batch size. -/
theorem batch_counts_failing_input :
    ItemResult.raisedCancel ∉ failingBatch ∧
    runCounts failingBatch = (1, 0) ∧
    (runCounts failingBatch).1 + (runCounts failingBatch).2 ≠ failingBatch.length ∧
    asyncRunCounts failingBatch = (0, 0) ∧
    (asyncRunCounts failingBatch).1 + (asyncRunCounts failingBatch).2 ≠ failingBatch.length := by
  refine ⟨by decide, by decide, by decide, by decide, by decide⟩

/-- C9: the claim as frozen is false on the code: even for an empty URL list
`run` emits the `yt-dlp version: …` log line before entering the loop, so
`allFinished(0,0)` is not the only event. -/
theorem empty_batch_counterexample :
    Event.log "yt-dlp version: unknown" ∈ runEvents "unknown" (fun _ _ _ => []) [] ∧
    Event.log "yt-dlp version: unknown" ≠ Event.allFinished 0 0 := by
  refine ⟨by decide, by decide⟩

/-- C9 (amended): an empty batch produces exactly the version-banner log line
followed by `allFinished(0,0)` from the threaded manager — and the two banner
log lines followed by `allFinished(0,0)` from the async manager (whose workers
emit nothing on an empty queue) — with no progress, status, error, itemStarted
or itemFinished events, whatever the loop body would do for items. -/
theorem empty_batch_amended (ydl_ver : String)
    (itemTrace : Nat → String → ItemResult → List Event) (k : Nat) :
    runEvents ydl_ver itemTrace [] =
      [Event.log ("yt-dlp version: " ++ ydl_ver), Event.allFinished 0 0] ∧
    asyncRunEvents ydl_ver k [] =
      [Event.log ("yt-dlp version: " ++ ydl_ver),
       Event.log s!"Using async download manager with {k} concurrent workers",
       Event.allFinished 0 0] := by
  exact ⟨rfl, rfl⟩

/-! ## JSON migration -/

/-- A legacy record as the old flat-file writer produced it. -/
def legacyRec : JsonRecord :=
  { url := some "https://e/x", title := some "T",
    success := some false, timestamp := some "2021-05-05T12:00:00" }

/-- C3: the code contradicts the claim at this input.  On a legacy file whose
top level is a raw array — exactly the shape the legacy `_save` wrote —
`data.get("records", [])` raises `AttributeError`, the surrounding handler
returns 0, nothing is inserted and the file is never renamed; the object form
works and preserves the original timestamp. -/
theorem migrate_rawarr_failing_input :
    migrate_from_json {} "2026-01-01T00:00:00" (LegacyJson.rawArr [legacyRec])
      = { migrated := 0, db := {}, renamedToBackup := false } ∧
    migrate_from_json {} "2026-01-01T00:00:00" (LegacyJson.objWithRecords [legacyRec])
      = { migrated := 1,
          db := { rows := [{ id := 1, url := "https://e/x", title := "T",
                             timestamp := "2021-05-05T12:00:00" }], nextId := 2 },
          renamedToBackup := true } := by
  refine ⟨by decide, by decide⟩

/-! ## Update-by-url -/

/-- Two failed records for the same URL, the second more recent. -/
def rowOldFailed : HistoryRow :=
  { id := 1, url := "https://e/v", timestamp := "2024-01-01T00:00:00",
    success := false, error_message := "boom" }

def rowNewFailed : HistoryRow :=
  { id := 2, url := "https://e/v", timestamp := "2024-02-02T00:00:00",
    success := false, error_message := "boom2" }

def dbTwoSame : HistoryDb :=
  { rows := [rowOldFailed, rowNewFailed], nextId := 3 }

/-- C4: the claim as frozen is false on the code: `UPDATE … WHERE url = ?` hits
every row with that url, so with two records for the same URL the older one is
modified too, not left unchanged. -/
theorem update_by_url_counterexample :
    (update_record dbTwoSame "https://e/v"
        { success := some true, output_path := some "/p.mp4" }).1.rows
      = [{ rowOldFailed with success := true, output_path := "/p.mp4" },
         { rowNewFailed with success := true, output_path := "/p.mp4" }] ∧
    ({ rowOldFailed with success := true, output_path := "/p.mp4" } : HistoryRow)
      ≠ rowOldFailed := by
  refine ⟨by decide, by decide⟩

/-- C4 (amended): `update_record` updates every record whose url matches (not
only the most recent); consequently `add_failed` on a URL with no prior record
followed by `update_record(url, success=true, output_path=p)` yields exactly
one record for that URL, with success true and output path `p`, and leaves all
other records unchanged. -/
theorem update_by_url_amended (db : HistoryDb) (now u p : String)
    (hfresh : ∀ r ∈ db.rows, r.url ≠ u) :
    ((update_record (add_failed db now u "T" "mp4" "best" "err" 0) u
        { success := some true, output_path := some p }).1.rows
      = db.rows ++
        [{ id := db.nextId, url := u, title := "T", format := "mp4", quality := "best",
           timestamp := now, output_path := p, success := true, error_message := "err",
           retry_count := 0, metadata := "\x7b\x7d" }]) ∧
    (((update_record (add_failed db now u "T" "mp4" "best" "err" 0) u
        { success := some true, output_path := some p }).1.rows.filter
          (fun r => r.url = u)).length = 1) ∧
    (update_record (add_failed db now u "T" "mp4" "best" "err" 0) u
        { success := some true, output_path := some p }).2 = true := by
  have hhas : (UpdateFields.hasAny { success := some true, output_path := some p }) = true := rfl
  have hmapRows :
      db.rows.map (fun r =>
        if r.url = u then applyUpdate { success := some true, output_path := some p } r else r)
        = db.rows := by
    have := List.map_congr_left (l := db.rows)
      (f := fun r =>
        if r.url = u then applyUpdate { success := some true, output_path := some p } r else r)
      (g := fun r => r)
      (fun r hr => if_neg (hfresh r hr))
    simpa using this
  have hrows :
      (update_record (add_failed db now u "T" "mp4" "best" "err" 0) u
        { success := some true, output_path := some p }).1.rows
      = db.rows ++
        [{ id := db.nextId, url := u, title := "T", format := "mp4", quality := "best",
           timestamp := now, output_path := p, success := true, error_message := "err",
           retry_count := 0, metadata := "\x7b\x7d" }] := by
    simp only [update_record, hhas, if_pos, add_failed, add_record, List.map_append,
      hmapRows, List.map_cons, List.map_nil, if_pos rfl]
    rfl
  refine ⟨hrows, ?_, ?_⟩
  · rw [hrows, List.filter_append]
    have h1 : db.rows.filter (fun r => decide (r.url = u)) = [] := by
      rw [List.filter_eq_nil_iff]
      intro r hr
      simp [hfresh r hr]
    rw [h1]
    simp
  · simp only [update_record, hhas, if_pos]
    rw [decide_eq_true_eq]
    refine ⟨{ id := db.nextId, url := u, title := "T", format := "mp4", quality := "best",
              timestamp := now, output_path := "", success := false, error_message := "err",
              retry_count := 0, metadata := "\x7b\x7d" }, ?_, rfl⟩
    simp [add_failed, add_record]

/-- Concrete instantiation of `update_by_url_amended` on the empty store. -/
theorem update_by_url_amended_witness :
    ((update_record (add_failed {} "2024-05-05T00:00:00" "https://e/w" "T" "mp4" "best" "err" 0)
        "https://e/w" { success := some true, output_path := some "/w.mp4" }).1.rows
      = [{ id := 1, url := "https://e/w", title := "T", format := "mp4", quality := "best",
           timestamp := "2024-05-05T00:00:00", output_path := "/w.mp4", success := true,
           error_message := "err", retry_count := 0, metadata := "\x7b\x7d" }]) ∧
    (((update_record (add_failed {} "2024-05-05T00:00:00" "https://e/w" "T" "mp4" "best" "err" 0)
        "https://e/w" { success := some true, output_path := some "/w.mp4" }).1.rows.filter
          (fun r => r.url = "https://e/w")).length = 1) := by
  have h := update_by_url_amended {} "2024-05-05T00:00:00" "https://e/w" "/w.mp4"
    (by intro r hr; simp at hr)
  exact ⟨by simpa using h.1, h.2.1⟩

/-! ## Failed-URL export -/

/-- Concatenation of a list of strings in order. -/
def concatAll : List String → String
  | [] => ""
  | s :: rest => s ++ concatAll rest

/-- The per-record block the spec describes for the failure export. -/
def failedBlock (r : HistoryRow) : String :=
  s!"# Failed: {r.error_message}\n" ++ s!"# Retry count: {r.retry_count}\n"
    ++ s!"# Date: {r.timestamp}\n" ++ s!"{r.url}\n\n"

theorem foldl_append_concatAll (body : HistoryRow → String) (l : List HistoryRow) :
    ∀ acc : String, l.foldl (fun a r => a ++ body r) acc = acc ++ concatAll (l.map body) := by
  induction l with
  | nil => intro acc; simp [concatAll]
  | cons e l ih =>
    intro acc
    simp only [List.foldl_cons, List.map_cons, concatAll, ih, String.append_assoc]

/-- A store holding a single failed record. -/
def dbOneFailed : HistoryDb :=
  { rows := [{ id := 1, url := "https://e/f", timestamp := "2024-03-03T00:00:00",
               success := false, error_message := "boom" }], nextId := 2 }

/-- C8: the claim as frozen is false on the `DatabaseManager.export_failed_urls`
code it cites: for a store with one failed record that export writes only the
bare URL line, not the comment-header block. -/
theorem export_failed_counterexample :
    export_failed_urls_text dbOneFailed = "https://e/f\n" ∧
    export_failed_urls_text dbOneFailed ≠
      "# Failed: boom\n# Retry count: 0\n# Date: 2024-03-03T00:00:00\nhttps://e/f\n\n" := by
  refine ⟨by decide, by decide⟩

/-- C8 (amended): the history-level export `DownloadHistory.export_failed`
writes, for every failed record in most-recent-first (timestamp-descending)
order, the block `# Failed: … / # Retry count: … / # Date: … / url / blank`;
the lower-level `DatabaseManager.export_failed_urls` writes one bare URL per
line instead. -/
theorem export_failed_amended (db : HistoryDb) :
    export_failed_text db = concatAll ((get_failed db).map failedBlock) ∧
    export_failed_urls_text db = concatAll ((get_failed db).map (fun r => r.url ++ "\n")) ∧
    List.Sorted tsDesc (get_failed db) ∧
    (∀ r ∈ get_failed db, r.success = false) := by
  refine ⟨?_, ?_, ?_, ?_⟩
  · have hbody : (fun (acc : String) (r : HistoryRow) =>
        acc ++ s!"# Failed: {r.error_message}\n" ++ s!"# Retry count: {r.retry_count}\n"
            ++ s!"# Date: {r.timestamp}\n" ++ s!"{r.url}\n\n")
        = (fun acc r => acc ++ failedBlock r) := by
      funext acc r
      simp [failedBlock, String.append_assoc]
    rw [export_failed_text, hbody, foldl_append_concatAll, String.empty_append]
  · have hbody : (fun (acc : String) (r : HistoryRow) => acc ++ r.url ++ "\n")
        = (fun acc r => acc ++ (r.url ++ "\n")) := by
      funext acc r
      rw [String.append_assoc]
    rw [export_failed_urls_text, hbody, foldl_append_concatAll, String.empty_append]
  · exact List.sorted_insertionSort tsDesc _
  · intro r hr
    have hmem : r ∈ db.rows.filter (fun r => !r.success) :=
      (List.perm_insertionSort tsDesc _).mem_iff.mp hr
    have := (List.mem_filter.mp hmem).2
    simpa using this

/-- Concrete instantiation of `export_failed_amended` on a one-record store. -/
theorem export_failed_amended_witness :
    export_failed_text dbOneFailed
      = concatAll ((get_failed dbOneFailed).map failedBlock) ∧
    ({ id := 1, url := "https://e/f", timestamp := "2024-03-03T00:00:00",
       success := false, error_message := "boom" } : HistoryRow).success = false := by
  refine ⟨(export_failed_amended dbOneFailed).1,
          (export_failed_amended dbOneFailed).2.2.2 _ (by decide)⟩

/-! ## Statistics -/

/-- C10: `get_stats` is total and consistent on every store: `total` is always
`completed + failed`, the success rate is `completed / total` exactly when the
store is non-empty, and the division-by-zero branch is never taken — the rate
is 0 on an empty history. -/
theorem stats_consistent (db : HistoryDb) :
    (get_stats db).total = (get_stats db).completed + (get_stats db).failed ∧
    (0 < (get_stats db).total →
       (get_stats db).success_rate
         = ((get_stats db).completed : ℚ) / ((get_stats db).total : ℚ)) ∧
    ((get_stats db).total = 0 → (get_stats db).success_rate = 0) := by
  refine ⟨?_, fun h => ?_, fun h => ?_⟩
  · simpa [get_stats] using List.length_eq_length_filter_add (l := db.rows)
      (fun r => r.success)
  · simp only [get_stats] at h ⊢
    rw [if_pos h]
  · simp only [get_stats] at h ⊢
    simp [h]

/-- The store used to instantiate `stats_consistent`. -/
def statsDemoDb : HistoryDb :=
  { rows := [{ id := 1, url := "https://e/s", timestamp := "2024-04-04T00:00:00",
               success := true, output_path := "/s.mp4" }], nextId := 2 }

/-- Concrete instantiation of `stats_consistent` on a one-row store and on the
empty store. -/
theorem stats_consistent_witness :
    (get_stats statsDemoDb).total
      = (get_stats statsDemoDb).completed + (get_stats statsDemoDb).failed ∧
    (get_stats statsDemoDb).success_rate
      = ((get_stats statsDemoDb).completed : ℚ) / ((get_stats statsDemoDb).total : ℚ) ∧
    (get_stats {}).success_rate = 0 := by
  refine ⟨(stats_consistent statsDemoDb).1,
          (stats_consistent statsDemoDb).2.1 (by decide),
          (stats_consistent {}).2.2 (by decide)⟩

end Ytdle
